import Mathlib

/-!
Shallow embedding of the Espresstrackk finance-tracker bot
(`src/database.py`, `src/bot.py`).

Modelling conventions:
* SQLite REAL / Python float amounts are modelled as `Rat` (exact
  arithmetic standing in for IEEE doubles; none of the verified
  properties hinges on rounding).
* `created_at` timestamps are reduced to their `DATE(...)` projection,
  an ISO date string; SQLite compares such strings lexicographically,
  which is what `String`'s linear order does.
* Each database method receives the current date explicitly where the
  Python code reads `datetime.now()`.
* SQL `ORDER BY` clauses are omitted: every verified statement is about
  membership, sums and counts, which are order-independent.
* Python `float(...)` is modelled for plain decimal literals
  (optional sign, digits, optional single decimal point); the exotic
  accepted forms (`inf`, `nan`, exponents, underscores) are outside the
  model and outside every claim's inputs.
-/

/-- One row of the `transactions` table (`src/database.py` lines 29-39). -/
structure Transaction where
  id : Nat
  user_id : Int
  trans_type : String
  amount : Rat
  category : String
  description : String
  created_date : String
  deriving DecidableEq, Repr

/-- One row of the `debt_tracking` table (`src/database.py` lines 42-56).
`updated_at` is not modelled (no claim mentions it). -/
structure DebtRecord where
  id : Nat
  user_id : Int
  debt_type : String
  amount : Rat
  contact_name : String
  purpose : String
  status : String
  borrow_date : String
  return_date : Option String
  deriving DecidableEq, Repr

/-- One row of the `user_settings` table (`src/database.py` lines 59-67).
`report_time` and `timezone` are vestigial (spec §9) and not modelled. -/
structure UserSetting where
  user_id : Int
  daily_report : Bool
  deriving DecidableEq, Repr

/-- The whole SQLite database.  `nextTransId` / `nextDebtId` model the
AUTOINCREMENT counters of the two tables. -/
structure DB where
  transactions : List Transaction
  debts : List DebtRecord
  settings : List UserSetting
  nextTransId : Nat
  nextDebtId : Nat
  deriving DecidableEq, Repr

/-- AUTOINCREMENT well-formedness: every stored debt id is below the
next id the table will hand out. -/
def DB.debtIdsFresh (db : DB) : Prop :=
  ∀ r ∈ db.debts, r.id < db.nextDebtId

instance (db : DB) : Decidable db.debtIdsFresh := by
  unfold DB.debtIdsFresh; infer_instance

/-- `Database.record_income` (`src/database.py` lines 75-81): INSERT a
row with trans_type `income`.  The Python default category is `salary`;
callers always pass one explicitly here. -/
def record_income (u : Int) (amount : Rat) (category description created_date : String)
    (db : DB) : DB :=
  { db with
    transactions :=
      db.transactions ++ [⟨db.nextTransId, u, "income", amount, category, description, created_date⟩],
    nextTransId := db.nextTransId + 1 }

/-- `Database.record_expense` (`src/database.py` lines 83-89). -/
def record_expense (u : Int) (amount : Rat) (category description created_date : String)
    (db : DB) : DB :=
  { db with
    transactions :=
      db.transactions ++ [⟨db.nextTransId, u, "expense", amount, category, description, created_date⟩],
    nextTransId := db.nextTransId + 1 }

/-- Modelled from the spec: the savings-recording path.  Spec §3 lists
`kind: enum (income, expense, savings)` but `src/` contains no savings
write; mirroring `record_income` / `record_expense`, it inserts a
transaction row whose trans_type is `savings`. -/
def record_savings (u : Int) (amount : Rat) (category description created_date : String)
    (db : DB) : DB :=
  { db with
    transactions :=
      db.transactions ++ [⟨db.nextTransId, u, "savings", amount, category, description, created_date⟩],
    nextTransId := db.nextTransId + 1 }

/-- `Database.add_borrowed_money` (`src/database.py` lines 93-105):
INSERT a pending `borrowed` row, returning `cursor.lastrowid`. -/
def add_borrowed_money (u : Int) (amount : Rat) (from_person purpose borrow_date : String)
    (db : DB) : Nat × DB :=
  (db.nextDebtId,
   { db with
     debts := db.debts ++
       [⟨db.nextDebtId, u, "borrowed", amount, from_person, purpose, "pending", borrow_date, none⟩],
     nextDebtId := db.nextDebtId + 1 })

/-- `Database.add_lent_money` (`src/database.py` lines 107-119). -/
def add_lent_money (u : Int) (amount : Rat) (to_person purpose lend_date : String)
    (db : DB) : Nat × DB :=
  (db.nextDebtId,
   { db with
     debts := db.debts ++
       [⟨db.nextDebtId, u, "lent", amount, to_person, purpose, "pending", lend_date, none⟩],
     nextDebtId := db.nextDebtId + 1 })

/-- `Database.mark_money_received` (`src/database.py` lines 121-132):
UPDATE debt_tracking SET status, return_date WHERE id AND user_id AND
debt_type = `lent`.  Note: the WHERE clause has no status filter.
Always returns True. -/
def mark_money_received (u : Int) (debt_id : Nat) (received_date : String)
    (db : DB) : Bool × DB :=
  (true,
   { db with
     debts := db.debts.map (fun r =>
       if r.id = debt_id ∧ r.user_id = u ∧ r.debt_type = "lent" then
         { r with status := "settled", return_date := some received_date }
       else r) })

/-- `Database.mark_money_returned` (`src/database.py` lines 134-145):
same UPDATE with debt_type = `borrowed`; no status filter; returns True. -/
def mark_money_returned (u : Int) (debt_id : Nat) (return_date : String)
    (db : DB) : Bool × DB :=
  (true,
   { db with
     debts := db.debts.map (fun r =>
       if r.id = debt_id ∧ r.user_id = u ∧ r.debt_type = "borrowed" then
         { r with status := "settled", return_date := some return_date }
       else r) })

/-- `Database.get_pending_borrows` (`src/database.py` lines 147-156);
the ORDER BY is omitted (membership and sums are order-independent). -/
def get_pending_borrows (u : Int) (db : DB) : List DebtRecord :=
  db.debts.filter (fun r =>
    r.user_id == u && r.debt_type == "borrowed" && r.status == "pending")

/-- `Database.get_pending_lends` (`src/database.py` lines 158-167). -/
def get_pending_lends (u : Int) (db : DB) : List DebtRecord :=
  db.debts.filter (fun r =>
    r.user_id == u && r.debt_type == "lent" && r.status == "pending")

/-- The settled-borrowed rows, as selected by the third aggregate of
`Database.get_borrow_lend_summary` (`src/database.py` lines 341-345). -/
def settledBorrows (u : Int) (db : DB) : List DebtRecord :=
  db.debts.filter (fun r =>
    r.user_id == u && r.debt_type == "borrowed" && r.status == "settled")

/-- `SUM(amount)` over the settled-borrowed rows, with SQL's
`NULL`-sum coalesced to 0 by the `or 0` on line 345. -/
def settledBorrowedTotal (u : Int) (db : DB) : Rat :=
  ((settledBorrows u db).map (fun r => r.amount)).sum

/-- The rows feeding `get_today_summary`'s aggregate
(`src/database.py` lines 176-181): the owner's transactions whose
`DATE(created_at)` equals the query date. -/
def transOnDate (u : Int) (d : String) (db : DB) : List Transaction :=
  db.transactions.filter (fun t => t.user_id == u && t.created_date == d)

/-- `SUM(amount)` of one `GROUP BY trans_type` bucket of the same-day
aggregate (missing bucket ↦ 0, matching `data.get(k, ...).get('total', 0)`). -/
def typeTotalOnDate (u : Int) (k d : String) (db : DB) : Rat :=
  (((transOnDate u d db).filter (fun t => t.trans_type == k)).map (fun t => t.amount)).sum

/-- `COUNT(*)` of one `GROUP BY trans_type` bucket of the same-day
aggregate. -/
def typeCountOnDate (u : Int) (k d : String) (db : DB) : Nat :=
  ((transOnDate u d db).filter (fun t => t.trans_type == k)).length

/-- Result of `Database.get_today_summary` (`src/database.py` lines
171-200), abstracted from the text template to the data it renders. -/
inductive TodaySummary where
  | noData
  | summary (income expenses : Rat) (expense_count : Nat)
  deriving DecidableEq, Repr

/-- `Database.get_today_summary`: the `if not data` branch yields the
no-data variant, otherwise income / expenses / expense-count render. -/
def get_today_summary (u : Int) (today : String) (db : DB) : TodaySummary :=
  if (transOnDate u today db).isEmpty then .noData
  else .summary (typeTotalOnDate u "income" today db)
                (typeTotalOnDate u "expense" today db)
                (typeCountOnDate u "expense" today db)

/-- SQLite TEXT comparison (byte-wise memcmp order) on the character
lists of two strings; coincides with lexicographic order on the ASCII
ISO dates it is applied to. -/
def charListLt : List Char → List Char → Bool
  | [], [] => false
  | [], _ :: _ => true
  | _ :: _, [] => false
  | a :: as, b :: bs =>
    if a.toNat < b.toNat then true
    else if b.toNat < a.toNat then false
    else charListLt as bs

/-- Strict SQLite TEXT order on strings. -/
def strLt (a b : String) : Bool :=
  charListLt a.data b.data

/-- Non-strict SQLite TEXT order on strings. -/
def strLe (a b : String) : Bool :=
  !charListLt b.data a.data

/-- The rows feeding `get_monthly_statement`'s aggregates
(`src/database.py` lines 266-271): `DATE(created_at)` in
`[month_start, month_end)`, compared as SQLite compares TEXT. -/
def monthTrans (u : Int) (ms me : String) (db : DB) : List Transaction :=
  db.transactions.filter (fun t =>
    t.user_id == u && strLe ms t.created_date && strLt t.created_date me)

/-- One `GROUP BY trans_type` sum of the monthly aggregate. -/
def monthTypeTotal (u : Int) (k ms me : String) (db : DB) : Rat :=
  (((monthTrans u ms me db).filter (fun t => t.trans_type == k)).map (fun t => t.amount)).sum

/-- The savings-rate expression of `get_monthly_statement`
(`src/database.py` line 295): `(net / income * 100) if income > 0 else 0`. -/
def monthlySavingsRate (u : Int) (ms me : String) (db : DB) : Rat :=
  let income := monthTypeTotal u "income" ms me db
  let expenses := monthTypeTotal u "expense" ms me db
  if 0 < income then (income - expenses) / income * 100 else 0

/-- The distinct grouping keys of the monthly `GROUP BY category`
expense breakdown (`src/database.py` lines 276-283). -/
def monthExpenseCategories (u : Int) (ms me : String) (db : DB) : List String :=
  (((monthTrans u ms me db).filter (fun t => t.trans_type == "expense")).map
    (fun t => t.category)).dedup

/-- `SUM(amount)` of one category bucket of the monthly expense
breakdown. -/
def monthCategoryTotal (u : Int) (c ms me : String) (db : DB) : Rat :=
  ((((monthTrans u ms me db).filter (fun t => t.trans_type == "expense")).filter
      (fun t => t.category == c)).map (fun t => t.amount)).sum

/-- The category lines of `get_monthly_statement` (`src/database.py`
lines 315-319): display name (`category or 'other'`), total, and the
guarded percentage `(total / expenses * 100) if expenses > 0 else 0`. -/
def monthlyCategoryLines (u : Int) (ms me : String) (db : DB) :
    List (String × Rat × Rat) :=
  let expenses := monthTypeTotal u "expense" ms me db
  (monthExpenseCategories u ms me db).map (fun c =>
    (if c = "" then "other" else c,
     monthCategoryTotal u c ms me db,
     if 0 < expenses then monthCategoryTotal u c ms me db / expenses * 100 else 0))

/-- Result of `Database.get_monthly_statement` (`src/database.py` lines
253-321), abstracted from the text template to the data it renders. -/
inductive MonthlyStatement where
  | noData
  | statement (income expenses : Rat) (expense_count : Nat)
      (net savings_rate : Rat) (categories : List (String × Rat × Rat))
  deriving DecidableEq, Repr

/-- `Database.get_monthly_statement`: `if not data` yields the no-data
variant, otherwise the rendered figures. -/
def get_monthly_statement (u : Int) (ms me : String) (db : DB) : MonthlyStatement :=
  if (monthTrans u ms me db).isEmpty then .noData
  else
    .statement (monthTypeTotal u "income" ms me db)
               (monthTypeTotal u "expense" ms me db)
               (((monthTrans u ms me db).filter (fun t => t.trans_type == "expense")).length)
               (monthTypeTotal u "income" ms me db - monthTypeTotal u "expense" ms me db)
               (monthlySavingsRate u ms me db)
               (monthlyCategoryLines u ms me db)

/-- The rows of `Database.get_person_wise_report`'s query
(`src/database.py` lines 405-411): all debt rows of the owner.  The
report shows its no-data variant iff this list is empty. -/
def personWiseRecords (u : Int) (db : DB) : List DebtRecord :=
  db.debts.filter (fun r => r.user_id == u)

/-- `Database.get_users_for_daily_report` (`src/database.py` lines
446-454): users with `daily_report = 1` UNION users having any
transaction row.  SQL UNION deduplicates, modelled by `dedup`. -/
def get_users_for_daily_report (db : DB) : List Int :=
  (((db.settings.filter (fun s => s.daily_report)).map (fun s => s.user_id)) ++
    db.transactions.map (fun t => t.user_id)).dedup

/-- Modelled from the spec (§3 UserSettings): whether the owner has
daily reports enabled — the stored flag, defaulting to enabled when no
settings row exists. -/
def spec_daily_report_enabled (u : Int) (db : DB) : Bool :=
  match db.settings.find? (fun s => s.user_id == u) with
  | some s => s.daily_report
  | none => true

/-- `Database.update_user_settings` (`src/database.py` lines 456-463):
INSERT ... ON CONFLICT(user_id) DO UPDATE SET daily_report. -/
def update_user_settings (u : Int) (daily : Bool) (db : DB) : DB :=
  if db.settings.any (fun s => s.user_id == u) then
    { db with settings := db.settings.map (fun s =>
        if s.user_id == u then { s with daily_report := daily } else s) }
  else
    { db with settings := db.settings ++ [⟨u, daily⟩] }

/-- `Database.wipe_user_data` (`src/database.py` lines 465-470): three
DELETE ... WHERE user_id statements inside one `get_connection` context,
which commits once at the end and rolls everything back on exception
(`src/database.py` lines 11-23) — hence a single atomic state change. -/
def wipe_user_data (u : Int) (db : DB) : DB :=
  { db with
    transactions := db.transactions.filter (fun t => !(t.user_id == u)),
    debts := db.debts.filter (fun r => !(r.user_id == u)),
    settings := db.settings.filter (fun s => !(s.user_id == u)) }

/-- Python `str.lower()` restricted to its ASCII behaviour (the inputs
of every claim are ASCII). -/
def pyLower (s : String) : String :=
  String.mk (s.data.map Char.toLower)

/-- Python `str.strip()`: drop leading and trailing whitespace. -/
def pyStrip (s : String) : String :=
  String.mk (((s.data.dropWhile Char.isWhitespace).reverse.dropWhile
    Char.isWhitespace).reverse)

/-- Python `str.startswith(pre)`. -/
def pyStarts (s pre : String) : Bool :=
  pre.data.isPrefixOf s.data

/-- The suffix after the first occurrence of `sep`, when `sep` occurs. -/
def afterSep (sep : List Char) : List Char → Option (List Char)
  | [] => if sep.isEmpty then some [] else none
  | c :: rest =>
    if sep.isPrefixOf (c :: rest) then some ((c :: rest).drop sep.length)
    else afterSep sep rest

/-- The longest prefix not containing `sep`. -/
def untilSep (sep : List Char) : List Char → List Char
  | [] => []
  | c :: rest =>
    if sep.isPrefixOf (c :: rest) then []
    else c :: untilSep sep rest

/-- Python `s.split(kw)[1]` for a keyword that occurs in `s`: the text
between the first occurrence of `kw` and the next one (or the end).
When `kw` does not occur the Python index raises; every use here is
guarded by a `startswith` check, and `""` is returned. -/
def pySplitSecond (s kw : String) : String :=
  match afterSep kw.data s.data with
  | none => ""
  | some rest => String.mk (untilSep kw.data rest)

/-- Numeric value of a list of decimal digit characters. -/
def digitsToNat (cs : List Char) : Nat :=
  cs.foldl (fun acc c => 10 * acc + (c.toNat - 48)) 0

/-- Leading sign of a Python float literal. -/
def parseSign (cs : List Char) : Rat × List Char :=
  match cs with
  | [] => (1, [])
  | c :: rest =>
    if c = '-' then (-1, rest)
    else if c = '+' then (1, rest)
    else (1, cs)

/-- Python `float(s)` for plain decimal literals: optional sign, then
digits with at most one decimal point and at least one digit overall
(so `5`, `5.`, `.5`, `-5` parse; ``, `.`, `x`, `5..2` raise ValueError,
modelled as `none`). -/
def parsePyFloat (s : String) : Option Rat :=
  let (sign, cs) := parseSign s.data
  let ip := cs.takeWhile Char.isDigit
  let rest := cs.dropWhile Char.isDigit
  if rest.isEmpty then
    if ip.isEmpty then none else some (sign * (digitsToNat ip : Rat))
  else if rest.headD 'x' == '.' then
    let fp := rest.tail
    if fp.all Char.isDigit && !(ip.isEmpty && fp.isEmpty) then
      some (sign * ((digitsToNat ip : Rat) + (digitsToNat fp : Rat) / (10 : Rat) ^ fp.length))
    else none
  else none

/-- Drop leading whitespace characters. -/
def dropWS (cs : List Char) : List Char :=
  cs.dropWhile Char.isWhitespace

/-- The leading whitespace-free token. -/
def takeTok (cs : List Char) : List Char :=
  cs.takeWhile (fun c => !c.isWhitespace)

/-- What follows the leading token. -/
def dropTok (cs : List Char) : List Char :=
  cs.dropWhile (fun c => !c.isWhitespace)

/-- Python `s.split(None, 2)`: split on whitespace runs with at most two
splits; the remainder keeps its internal spacing after its leading
whitespace is skipped, and no empty trailing element is produced. -/
def splitNoneMax2 (s : String) : List String :=
  let c0 := dropWS s.data
  if c0.isEmpty then []
  else
    let t1 := takeTok c0
    let r1 := dropWS (dropTok c0)
    if r1.isEmpty then [String.mk t1]
    else
      let t2 := takeTok r1
      let r2 := dropWS (dropTok r1)
      if r2.isEmpty then [String.mk t1, String.mk t2]
      else [String.mk t1, String.mk t2, String.mk r2]

/-- Outcome of one guided-entry message (`receive_income` /
`receive_expense` in `src/bot.py`): reprompt on bad format, reprompt on
`ValueError` from `float(...)`, or a recorded transaction. -/
inductive EntryResult where
  | invalidFormat
  | invalidAmount
  | recorded (amount : Rat) (category description : String)
  deriving DecidableEq, Repr

/-- `receive_income` (`src/bot.py` lines 548-588): strip, split into at
most three tokens, require two, `float` the first (ValueError reprompts),
lowercase the category; no positivity check anywhere. -/
def receive_income (text : String) : EntryResult :=
  let parts := splitNoneMax2 (pyStrip text)
  if parts.length < 2 then .invalidFormat
  else
    match parsePyFloat (parts.getD 0 "") with
    | none => .invalidAmount
    | some a => .recorded a (pyLower (parts.getD 1 "")) (parts.getD 2 "")

/-- The enumerated expense categories (`src/bot.py` lines 607-608). -/
def valid_categories : List String :=
  ["food", "transport", "bills", "shopping", "health",
   "entertainment", "education", "other"]

/-- `receive_expense` (`src/bot.py` lines 590-636): like
`receive_income`, but a category outside `valid_categories` is coerced
to `other`. -/
def receive_expense (text : String) : EntryResult :=
  let parts := splitNoneMax2 (pyStrip text)
  if parts.length < 2 then .invalidFormat
  else
    match parsePyFloat (parts.getD 0 "") with
    | none => .invalidAmount
    | some a =>
      let category := pyLower (parts.getD 1 "")
      .recorded a (if valid_categories.contains category then category else "other")
        (parts.getD 2 "")

/-- Database effect of one guided income message: `db.record_income` is
called exactly on the recorded outcome (`src/bot.py` line 566). -/
def apply_receive_income (text : String) (u : Int) (d : String) (db : DB) : DB :=
  match receive_income text with
  | .recorded a c ds => record_income u a c ds d db
  | _ => db

/-- Database effect of one guided expense message (`src/bot.py` line 613). -/
def apply_receive_expense (text : String) (u : Int) (d : String) (db : DB) : DB :=
  match receive_expense text with
  | .recorded a c ds => record_expense u a c ds d db
  | _ => db

/-- Outcome of the free-text router `handle_text`
(`src/bot.py` lines 714-755). -/
inductive TextCmdResult where
  | income (amount : Rat) (category description : String)
  | expense (amount : Rat) (category description : String)
  | unknown
  | errorReply
  deriving DecidableEq, Repr

/-- The token list of a quick command: everything after the first
occurrence of the keyword (`text.split(kw)[1]`), stripped and split into
at most three tokens. -/
def quickParts (text kw : String) : List String :=
  splitNoneMax2 (pyStrip (pySplitSecond text kw))

/-- `handle_text` (`src/bot.py` lines 714-755): lowercase and strip,
then only two commands exist — a leading `income` or a leading `spend`;
everything else gets the generic unknown-command reply.  An empty token
list (IndexError on `parts[0]`) or a `float` failure lands in the
`except` branch.  No category coercion happens on this path. -/
def handle_text (raw : String) : TextCmdResult :=
  let text := pyStrip (pyLower raw)
  if pyStarts text "income" then
    let parts := quickParts text "income"
    match parts with
    | [] => .errorReply
    | p0 :: _ =>
      match parsePyFloat p0 with
      | none => .errorReply
      | some a => .income a (parts.getD 1 "other") (parts.getD 2 "")
  else if pyStarts text "spend" then
    let parts := quickParts text "spend"
    match parts with
    | [] => .errorReply
    | p0 :: _ =>
      match parsePyFloat p0 with
      | none => .errorReply
      | some a => .expense a (parts.getD 1 "other") (parts.getD 2 "")
  else .unknown

/-- Database effect of one free-text message (`src/bot.py` lines
720-740). -/
def apply_handle_text (raw : String) (u : Int) (d : String) (db : DB) : DB :=
  match handle_text raw with
  | .income a c ds => record_income u a c ds d db
  | .expense a c ds => record_expense u a c ds d db
  | _ => db

/-- The database writes reachable through the bot interface
(`src/bot.py`): guided/quick income and expense entry, borrow/lend
entry, the settle buttons, the settings toggle (which always passes
`True` — `src/bot.py` line 484) and the reset button. -/
inductive BotDBOp where
  | recIncome (u : Int) (a : Rat) (cat desc date : String)
  | recExpense (u : Int) (a : Rat) (cat desc date : String)
  | addBorrow (u : Int) (a : Rat) (contact purpose date : String)
  | addLend (u : Int) (a : Rat) (contact purpose date : String)
  | markReceived (u : Int) (did : Nat) (date : String)
  | markReturned (u : Int) (did : Nat) (date : String)
  | toggleDailyReport (u : Int)
  | executeReset (u : Int)
  deriving Repr

/-- One bot-initiated database write. -/
def applyBotOp : BotDBOp → DB → DB
  | .recIncome u a c ds dt, db => record_income u a c ds dt db
  | .recExpense u a c ds dt, db => record_expense u a c ds dt db
  | .addBorrow u a ct p dt, db => (add_borrowed_money u a ct p dt db).2
  | .addLend u a ct p dt, db => (add_lent_money u a ct p dt db).2
  | .markReceived u did dt, db => (mark_money_received u did dt db).2
  | .markReturned u did dt, db => (mark_money_returned u did dt db).2
  | .toggleDailyReport u, db => update_user_settings u true db
  | .executeReset u, db => wipe_user_data u db

/-- A sequence of bot-initiated database writes. -/
def applyBotOps (ops : List BotDBOp) (db : DB) : DB :=
  ops.foldl (fun s o => applyBotOp o s) db

/-- The borrow-then-settle scenario of spec §8: record borrowed money,
then tap the `return_<id>` button for the id just handed out. -/
def borrowThenSettle (u : Int) (a : Rat) (contact purpose bdate rdate : String)
    (db : DB) : DB :=
  let r := add_borrowed_money u a contact purpose bdate db
  (mark_money_returned u r.1 rdate r.2).2

/-- The empty database. -/
def db0 : DB :=
  ⟨[], [], [], 1, 1⟩

/-- Fixture for C4: one already-settled borrowed record. -/
def dbSettled : DB :=
  ⟨[], [⟨1, 1, "borrowed", 500, "John", "bike", "settled", "2025-01-01", some "2025-01-05"⟩],
   [], 1, 2⟩

/-- Fixture for C7: one expense row of amount 0 inside January 2025 (a
reachable state — `float("0")` parses, see C3), giving a month with zero
income, zero expense total and a nonempty category breakdown. -/
def dbZeroMonth : DB :=
  ⟨[⟨1, 1, "expense", 0, "food", "", "2025-01-10"⟩], [], [], 2, 1⟩

/-- Fixture for C8: owner 1 has daily reports explicitly disabled yet
owns a transaction row. -/
def dbOptedOut : DB :=
  ⟨[⟨1, 1, "expense", 5, "food", "", "2025-01-10"⟩], [], [⟨1, false⟩], 2, 1⟩

/-- Fixture for C2/C10 witnesses: a populated well-formed database. -/
def dbWit : DB :=
  ⟨[⟨1, 1, "income", 50000, "salary", "", "2025-01-02"⟩],
   [⟨1, 1, "borrowed", 200, "Amy", "", "pending", "2025-01-01", none⟩,
    ⟨2, 1, "borrowed", 300, "Bob", "", "settled", "2025-01-01", some "2025-01-03"⟩],
   [⟨1, true⟩], 2, 3⟩

/-- Inserting one transaction row changes a same-day `GROUP BY
trans_type` sum bucket by the row's amount when the bucket matches, and
not at all otherwise. -/
theorem insertTrans_typeTotal (db : DB) (u : Int) (a : Rat) (kind cat desc d k : String) :
    typeTotalOnDate u k d
      { db with
        transactions := db.transactions ++ [⟨db.nextTransId, u, kind, a, cat, desc, d⟩],
        nextTransId := db.nextTransId + 1 }
      = typeTotalOnDate u k d db + (if kind = k then a else 0) := by
  by_cases h : kind = k <;>
    simp [typeTotalOnDate, transOnDate, List.filter_append, h]

/-- Inserting one transaction row changes a same-day `GROUP BY
trans_type` count bucket by one when the bucket matches, and not at all
otherwise. -/
theorem insertTrans_typeCount (db : DB) (u : Int) (a : Rat) (kind cat desc d k : String) :
    typeCountOnDate u k d
      { db with
        transactions := db.transactions ++ [⟨db.nextTransId, u, kind, a, cat, desc, d⟩],
        nextTransId := db.nextTransId + 1 }
      = typeCountOnDate u k d db + (if kind = k then 1 else 0) := by
  by_cases h : kind = k <;>
    simp [typeCountOnDate, transOnDate, List.filter_append, h]

/-- C1: recording an income, expense, or savings event of positive
amount `a` for an owner and then querying that owner's same-day summary
aggregate yields that kind's total increased by exactly `a` and that
kind's count increased by exactly 1, with every other kind's total and
count unchanged. -/
theorem c1_record_then_same_day_summary (db : DB) (u : Int) (a : Rat)
    (cat desc d : String) (ha : 0 < a) :
    (typeTotalOnDate u "income" d (record_income u a cat desc d db)
        = typeTotalOnDate u "income" d db + a
      ∧ typeCountOnDate u "income" d (record_income u a cat desc d db)
        = typeCountOnDate u "income" d db + 1
      ∧ ∀ k, k ≠ "income" →
          typeTotalOnDate u k d (record_income u a cat desc d db)
            = typeTotalOnDate u k d db
          ∧ typeCountOnDate u k d (record_income u a cat desc d db)
            = typeCountOnDate u k d db)
    ∧ (typeTotalOnDate u "expense" d (record_expense u a cat desc d db)
        = typeTotalOnDate u "expense" d db + a
      ∧ typeCountOnDate u "expense" d (record_expense u a cat desc d db)
        = typeCountOnDate u "expense" d db + 1
      ∧ ∀ k, k ≠ "expense" →
          typeTotalOnDate u k d (record_expense u a cat desc d db)
            = typeTotalOnDate u k d db
          ∧ typeCountOnDate u k d (record_expense u a cat desc d db)
            = typeCountOnDate u k d db)
    ∧ (typeTotalOnDate u "savings" d (record_savings u a cat desc d db)
        = typeTotalOnDate u "savings" d db + a
      ∧ typeCountOnDate u "savings" d (record_savings u a cat desc d db)
        = typeCountOnDate u "savings" d db + 1
      ∧ ∀ k, k ≠ "savings" →
          typeTotalOnDate u k d (record_savings u a cat desc d db)
            = typeTotalOnDate u k d db
          ∧ typeCountOnDate u k d (record_savings u a cat desc d db)
            = typeCountOnDate u k d db) := by
  refine ⟨⟨?_, ?_, fun k hk => ⟨?_, ?_⟩⟩, ⟨?_, ?_, fun k hk => ⟨?_, ?_⟩⟩,
    ⟨?_, ?_, fun k hk => ⟨?_, ?_⟩⟩⟩
  · simpa [record_income] using insertTrans_typeTotal db u a "income" cat desc d "income"
  · simpa [record_income] using insertTrans_typeCount db u a "income" cat desc d "income"
  · simpa [record_income, Ne.symm hk] using insertTrans_typeTotal db u a "income" cat desc d k
  · simpa [record_income, Ne.symm hk] using insertTrans_typeCount db u a "income" cat desc d k
  · simpa [record_expense] using insertTrans_typeTotal db u a "expense" cat desc d "expense"
  · simpa [record_expense] using insertTrans_typeCount db u a "expense" cat desc d "expense"
  · simpa [record_expense, Ne.symm hk] using insertTrans_typeTotal db u a "expense" cat desc d k
  · simpa [record_expense, Ne.symm hk] using insertTrans_typeCount db u a "expense" cat desc d k
  · simpa [record_savings] using insertTrans_typeTotal db u a "savings" cat desc d "savings"
  · simpa [record_savings] using insertTrans_typeCount db u a "savings" cat desc d "savings"
  · simpa [record_savings, Ne.symm hk] using insertTrans_typeTotal db u a "savings" cat desc d k
  · simpa [record_savings, Ne.symm hk] using insertTrans_typeCount db u a "savings" cat desc d k

/-- C1 witness: the income case evaluated on a concrete database. -/
theorem c1_record_then_same_day_summary_witness :
    typeTotalOnDate 1 "income" "2025-01-02"
        (record_income 1 5 "salary" "" "2025-01-02" db0)
      = typeTotalOnDate 1 "income" "2025-01-02" db0 + 5
    ∧ typeCountOnDate 1 "income" "2025-01-02"
        (record_income 1 5 "salary" "" "2025-01-02" db0)
      = typeCountOnDate 1 "income" "2025-01-02" db0 + 1
    ∧ typeTotalOnDate 1 "expense" "2025-01-02"
        (record_income 1 5 "salary" "" "2025-01-02" db0)
      = typeTotalOnDate 1 "expense" "2025-01-02" db0 := by
  obtain ⟨h1, h2, h3⟩ :=
    (c1_record_then_same_day_summary db0 1 5 "salary" "" "2025-01-02" (by norm_num)).1
  exact ⟨h1, h2, (h3 "expense" (by decide)).1⟩

/-- C2: recording a borrowed debt of amount `a` and then settling it via
the returned-money button removes that record from the pending-borrowed
set (the final pending-borrowed set equals the original one) and adds
`a` to the settled-borrowed total; and no debt record is ever counted in
both the pending-borrowed set and the settled-borrowed set. -/
theorem c2_borrow_settle_round_trip (db : DB) (u : Int) (a : Rat)
    (contact purpose bdate rdate : String) (hfresh : db.debtIdsFresh) :
    get_pending_borrows u (borrowThenSettle u a contact purpose bdate rdate db)
      = get_pending_borrows u db
    ∧ settledBorrowedTotal u (borrowThenSettle u a contact purpose bdate rdate db)
      = settledBorrowedTotal u db + a
    ∧ ∀ r, ¬(r ∈ get_pending_borrows u (borrowThenSettle u a contact purpose bdate rdate db)
          ∧ r ∈ settledBorrows u (borrowThenSettle u a contact purpose bdate rdate db)) := by
  have hdebts : (borrowThenSettle u a contact purpose bdate rdate db).debts
      = db.debts ++
        [⟨db.nextDebtId, u, "borrowed", a, contact, purpose, "settled", bdate, some rdate⟩] := by
    have hold : ∀ r ∈ db.debts,
        (fun r : DebtRecord =>
          if r.id = db.nextDebtId ∧ r.user_id = u ∧ r.debt_type = "borrowed" then
            { r with status := "settled", return_date := some rdate } else r) r = r := by
      intro r hr
      exact if_neg (fun h => absurd h.1 (Nat.ne_of_lt (hfresh r hr)))
    simp only [borrowThenSettle, add_borrowed_money, mark_money_returned, List.map_append]
    rw [(List.map_congr_left hold).trans (List.map_id db.debts)]
    simp
  refine ⟨?_, ?_, ?_⟩
  · simp [get_pending_borrows, hdebts, List.filter_append]
  · simp [settledBorrowedTotal, settledBorrows, hdebts, List.filter_append]
  · rintro r ⟨hp, hs⟩
    have h1 := (List.mem_filter.1 hp).2
    have h2 := (List.mem_filter.1 hs).2
    simp only [Bool.and_eq_true, beq_iff_eq] at h1 h2
    exact absurd (h1.2.symm.trans h2.2) (by decide)

/-- C2 witness: the round trip evaluated on a concrete well-formed
database. -/
theorem c2_borrow_settle_round_trip_witness :
    get_pending_borrows 1 (borrowThenSettle 1 500 "John" "bike" "2025-01-04" "2025-01-06" dbWit)
      = get_pending_borrows 1 dbWit
    ∧ settledBorrowedTotal 1 (borrowThenSettle 1 500 "John" "bike" "2025-01-04" "2025-01-06" dbWit)
      = settledBorrowedTotal 1 dbWit + 500 := by
  have h := c2_borrow_settle_round_trip dbWit 1 500 "John" "bike" "2025-01-04" "2025-01-06"
    (by decide)
  exact ⟨h.1, h.2.1⟩

/-- C3 counterexample: the guided income entry accepts the amount `-5`
(Python `float("-5")` succeeds, and no positivity check exists), records
it, and the stored transaction violates `amount > 0`. -/
theorem c3_counterexample :
    receive_income "-5 salary" = .recorded (-5) "salary" ""
    ∧ (apply_receive_income "-5 salary" 1 "2025-01-02" db0).transactions.map
        (fun t => t.amount) = [(-5 : Rat)]
    ∧ ¬(0 < (-5 : Rat)) := by
  refine ⟨?_, ?_, by norm_num⟩ <;>
    simp +decide [receive_income, apply_receive_income, record_income, db0,
      splitNoneMax2, pyStrip, pyLower, dropWS, takeTok, dropTok,
      parsePyFloat, parseSign, digitsToNat]

/-- C3 amended: a transaction entry is rejected (the `ValueError`
reprompt) exactly when the amount token cannot be parsed as a number at
all; any parseable amount — positive or not — is inserted, so stored
amounts are not guaranteed positive. -/
theorem c3_amended_reject_iff_unparseable (text : String) (u : Int) (d : String) (db : DB)
    (hlen : 2 ≤ (splitNoneMax2 (pyStrip text)).length) :
    (receive_income text = .invalidAmount
      ↔ parsePyFloat ((splitNoneMax2 (pyStrip text)).getD 0 "") = none)
    ∧ ∀ a, parsePyFloat ((splitNoneMax2 (pyStrip text)).getD 0 "") = some a →
        (apply_receive_income text u d db).transactions
          = db.transactions ++ [⟨db.nextTransId, u, "income", a,
              pyLower ((splitNoneMax2 (pyStrip text)).getD 1 ""),
              (splitNoneMax2 (pyStrip text)).getD 2 "", d⟩] := by
  have hnot : ¬((splitNoneMax2 (pyStrip text)).length < 2) := not_lt.2 hlen
  constructor
  · unfold receive_income
    rw [if_neg hnot]
    cases hp : parsePyFloat ((splitNoneMax2 (pyStrip text)).getD 0 "") <;> simp [hp]
  · intro a hp
    unfold apply_receive_income receive_income record_income
    rw [if_neg hnot, hp]

/-- C3 amended witness: the amount `0` parses, is not rejected, and is
inserted. -/
theorem c3_amended_reject_iff_unparseable_witness :
    (apply_receive_income "0 misc" 1 "2025-01-02" db0).transactions
      = db0.transactions ++ [⟨1, 1, "income", 0, "misc", "", "2025-01-02"⟩] := by
  have h := c3_amended_reject_iff_unparseable "0 misc" 1 "2025-01-02" db0 (by decide)
  have hp : parsePyFloat ((splitNoneMax2 (pyStrip "0 misc")).getD 0 "") = some 0 := by
    simp +decide [splitNoneMax2, pyStrip, dropWS, takeTok, dropTok,
      parsePyFloat, parseSign, digitsToNat]
  have h2 := h.2 0 hp
  simpa +decide [splitNoneMax2, pyStrip, pyLower, dropWS, takeTok, dropTok, db0] using h2

/-- C4 counterexample: `dbSettled` holds one debt record of owner 1 with
id 1, debt_type `borrowed` and status `settled` (not pending); settling
it again is not a no-op — the record's return_date is re-stamped from
`2025-01-05` to `2025-02-02`, because the UPDATE's WHERE clause never
checks the pending status. -/
theorem c4_counterexample :
    dbSettled.debts.map (fun r => (r.id, r.user_id, r.debt_type, r.status))
      = [(1, 1, "borrowed", "settled")]
    ∧ dbSettled.debts.map (fun r => r.return_date) = [some "2025-01-05"]
    ∧ (mark_money_returned 1 1 "2025-02-02" dbSettled).2.debts.map (fun r => r.return_date)
      = [some "2025-02-02"]
    ∧ some "2025-02-02" ≠ some "2025-01-05" := by
  refine ⟨by decide, by decide, ?_, by decide⟩
  simp +decide [mark_money_returned, dbSettled]

/-- C4 amended: each settle operation always reports success; it is a
no-op exactly when no record of the owner with the given id and the
matching debt_type exists (wrong owner, wrong id, or wrong direction);
and every matching record — whether pending or already settled — ends up
settled with the settlement date stamped, so an already-settled matching
record gets its return_date overwritten rather than being left
unchanged. -/
theorem c4_amended_settle_semantics (db : DB) (u : Int) (did : Nat) (d : String) :
    ((mark_money_returned u did d db).1 = true ∧ (mark_money_received u did d db).1 = true)
    ∧ ((∀ r ∈ db.debts, ¬(r.id = did ∧ r.user_id = u ∧ r.debt_type = "borrowed")) →
        (mark_money_returned u did d db).2 = db)
    ∧ (∀ r ∈ (mark_money_returned u did d db).2.debts,
        r.id = did → r.user_id = u → r.debt_type = "borrowed" →
          r.status = "settled" ∧ r.return_date = some d)
    ∧ (∀ r ∈ db.debts, ¬(r.id = did ∧ r.user_id = u ∧ r.debt_type = "borrowed") →
        r ∈ (mark_money_returned u did d db).2.debts)
    ∧ ((∀ r ∈ db.debts, ¬(r.id = did ∧ r.user_id = u ∧ r.debt_type = "lent")) →
        (mark_money_received u did d db).2 = db)
    ∧ (∀ r ∈ (mark_money_received u did d db).2.debts,
        r.id = did → r.user_id = u → r.debt_type = "lent" →
          r.status = "settled" ∧ r.return_date = some d)
    ∧ (∀ r ∈ db.debts, ¬(r.id = did ∧ r.user_id = u ∧ r.debt_type = "lent") →
        r ∈ (mark_money_received u did d db).2.debts) := by
  refine ⟨⟨rfl, rfl⟩, ?_, ?_, ?_, ?_, ?_, ?_⟩
  · intro hno
    show ({ db with debts := _ } : DB) = db
    have : db.debts.map (fun r =>
        if r.id = did ∧ r.user_id = u ∧ r.debt_type = "borrowed" then
          { r with status := "settled", return_date := some d } else r) = db.debts :=
      (List.map_congr_left (fun r hr => if_neg (hno r hr))).trans (List.map_id db.debts)
    simp [mark_money_returned, this]
  · intro r hr h1 h2 h3
    obtain ⟨s, hs, rfl⟩ := List.mem_map.1 hr
    by_cases hc : s.id = did ∧ s.user_id = u ∧ s.debt_type = "borrowed"
    · simp [hc]
    · simp only [if_neg hc] at h1 h2 h3 ⊢
      exact absurd ⟨h1, h2, h3⟩ hc
  · intro r hr hno
    exact List.mem_map.2 ⟨r, hr, if_neg hno⟩
  · intro hno
    show ({ db with debts := _ } : DB) = db
    have : db.debts.map (fun r =>
        if r.id = did ∧ r.user_id = u ∧ r.debt_type = "lent" then
          { r with status := "settled", return_date := some d } else r) = db.debts :=
      (List.map_congr_left (fun r hr => if_neg (hno r hr))).trans (List.map_id db.debts)
    simp [mark_money_received, this]
  · intro r hr h1 h2 h3
    obtain ⟨s, hs, rfl⟩ := List.mem_map.1 hr
    by_cases hc : s.id = did ∧ s.user_id = u ∧ s.debt_type = "lent"
    · simp [hc]
    · simp only [if_neg hc] at h1 h2 h3 ⊢
      exact absurd ⟨h1, h2, h3⟩ hc
  · intro r hr hno
    exact List.mem_map.2 ⟨r, hr, if_neg hno⟩

/-- C4 amended witness: on `dbSettled`, settling the already-settled
matching record stamps status and date; settling with a non-matching id
is a no-op. -/
theorem c4_amended_settle_semantics_witness :
    ((mark_money_returned 1 1 "2025-02-02" dbSettled).2.debts.all
      (fun r => r.status == "settled" && r.return_date == some "2025-02-02")) = true
    ∧ (mark_money_returned 1 99 "2025-02-02" dbSettled).2 = dbSettled := by
  have h := c4_amended_settle_semantics dbSettled 1 1 "2025-02-02"
  have h99 := c4_amended_settle_semantics dbSettled 1 99 "2025-02-02"
  constructor
  · rw [List.all_eq_true]
    intro r hr
    have hre : r = ⟨1, 1, "borrowed", 500, "John", "bike", "settled", "2025-01-01",
        some "2025-02-02"⟩ := by
      simpa +decide [mark_money_returned, dbSettled] using hr
    have hc := h.2.2.1 r hr (by rw [hre]) (by rw [hre]) (by rw [hre])
    simp [hc.1, hc.2]
  · exact h99.2.1 (by decide)

/-- C5 counterexample: the quick `spend` text command with the
unrecognized category `xyz` stores the transaction under category `xyz`,
not `other` — the coercion exists only on the guided conversation path. -/
theorem c5_counterexample :
    handle_text "spend 500 xyz" = .expense 500 "xyz" ""
    ∧ (apply_handle_text "spend 500 xyz" 1 "2025-03-01" db0).transactions.map
        (fun t => t.category) = ["xyz"]
    ∧ "xyz" ∉ valid_categories
    ∧ ("xyz" : String) ≠ "other" := by
  have h : handle_text "spend 500 xyz" = .expense 500 "xyz" "" := by
    simp +decide [handle_text, quickParts, pySplitSecond, pyStrip, pyLower, pyStarts,
      splitNoneMax2, dropWS, takeTok, dropTok, afterSep, untilSep,
      parsePyFloat, parseSign, digitsToNat]
  refine ⟨h, ?_, by decide, by decide⟩
  simp [apply_handle_text, h, record_expense, db0]

/-- C5 amended: the guided conversation entry always stores a category
from the enumerated set (an unrecognized string is coerced to `other`),
while the quick `spend` text command stores the raw category token
without any coercion. -/
theorem c5_amended_coercion_guided_path_only :
    (∀ text a c ds, receive_expense text = .recorded a c ds → c ∈ valid_categories)
    ∧ handle_text "spend 42 gadgets" = .expense 42 "gadgets" "" := by
  constructor
  · intro text a c ds h
    simp only [receive_expense] at h
    split at h
    · exact absurd h (by simp)
    · split at h
      · exact absurd h (by simp)
      · simp only [EntryResult.recorded.injEq] at h
        obtain ⟨-, hc, -⟩ := h
        rw [← hc]
        by_cases hm : valid_categories.contains
            (pyLower ((splitNoneMax2 (pyStrip text)).getD 1 "")) = true
        · rw [if_pos hm]
          exact List.elem_iff.1 hm
        · rw [if_neg hm]
          decide
  · simp +decide [handle_text, quickParts, pySplitSecond, pyStrip, pyLower, pyStarts,
      splitNoneMax2, dropWS, takeTok, dropTok, afterSep, untilSep,
      parsePyFloat, parseSign, digitsToNat]

/-- C5 amended witness: the guided path coerces `xyz` to `other`, which
is in the enumerated set. -/
theorem c5_amended_coercion_guided_path_only_witness :
    receive_expense "12 xyz stuff" = .recorded 12 "other" "stuff"
    ∧ ("other" : String) ∈ valid_categories := by
  have hre : receive_expense "12 xyz stuff" = .recorded 12 "other" "stuff" := by
    simp +decide [receive_expense, splitNoneMax2, pyStrip, pyLower, dropWS, takeTok,
      dropTok, parsePyFloat, parseSign, digitsToNat]
  exact ⟨hre, c5_amended_coercion_guided_path_only.1 "12 xyz stuff" 12 "other" "stuff" hre⟩

/-- C6: after `wipe_user_data(owner)` no transaction, debt or settings
row of that owner remains queryable, the same-day and monthly report
queries return their no-data variants for every date and range, the
person-wise report and pending-debt queries find nothing, and the owner
is no longer in the daily-report recipient list.  Atomicity holds by
construction: the three DELETEs run inside one connection context that
commits once (rolling all three back on exception), modelled as a single
state transition. -/
theorem c6_purge_owner (db : DB) (u : Int) :
    (∀ t ∈ (wipe_user_data u db).transactions, t.user_id ≠ u)
    ∧ (∀ r ∈ (wipe_user_data u db).debts, r.user_id ≠ u)
    ∧ (∀ s ∈ (wipe_user_data u db).settings, s.user_id ≠ u)
    ∧ (∀ d, get_today_summary u d (wipe_user_data u db) = .noData)
    ∧ (∀ ms me, get_monthly_statement u ms me (wipe_user_data u db) = .noData)
    ∧ personWiseRecords u (wipe_user_data u db) = []
    ∧ get_pending_borrows u (wipe_user_data u db) = []
    ∧ get_pending_lends u (wipe_user_data u db) = []
    ∧ u ∉ get_users_for_daily_report (wipe_user_data u db) := by
  have htr : ∀ t ∈ (wipe_user_data u db).transactions, t.user_id ≠ u := by
    intro t ht
    have := (List.mem_filter.1 ht).2
    simpa using this
  have hdb : ∀ r ∈ (wipe_user_data u db).debts, r.user_id ≠ u := by
    intro r hr
    have := (List.mem_filter.1 hr).2
    simpa using this
  have hst : ∀ s ∈ (wipe_user_data u db).settings, s.user_id ≠ u := by
    intro s hs
    have := (List.mem_filter.1 hs).2
    simpa using this
  have htoday : ∀ d, transOnDate u d (wipe_user_data u db) = [] := by
    intro d
    rw [transOnDate, List.filter_eq_nil_iff]
    intro t ht hcond
    simp only [Bool.and_eq_true, beq_iff_eq] at hcond
    exact htr t ht hcond.1
  have hmonth : ∀ ms me, monthTrans u ms me (wipe_user_data u db) = [] := by
    intro ms me
    rw [monthTrans, List.filter_eq_nil_iff]
    intro t ht hcond
    simp only [Bool.and_eq_true, beq_iff_eq] at hcond
    exact htr t ht hcond.1.1
  refine ⟨htr, hdb, hst, ?_, ?_, ?_, ?_, ?_, ?_⟩
  · intro d
    simp [get_today_summary, htoday d]
  · intro ms me
    simp [get_monthly_statement, hmonth ms me]
  · rw [personWiseRecords, List.filter_eq_nil_iff]
    intro r hr hcond
    exact hdb r hr (by simpa using hcond)
  · rw [get_pending_borrows, List.filter_eq_nil_iff]
    intro r hr hcond
    simp only [Bool.and_eq_true, beq_iff_eq] at hcond
    exact hdb r hr hcond.1.1
  · rw [get_pending_lends, List.filter_eq_nil_iff]
    intro r hr hcond
    simp only [Bool.and_eq_true, beq_iff_eq] at hcond
    exact hdb r hr hcond.1.1
  · intro hmem
    rw [get_users_for_daily_report, List.mem_dedup, List.mem_append] at hmem
    rcases hmem with hmem | hmem
    · obtain ⟨s, hs, hsu⟩ := List.mem_map.1 hmem
      exact hst s (List.mem_of_mem_filter hs) hsu
    · obtain ⟨t, ht, htu⟩ := List.mem_map.1 hmem
      exact htr t ht htu

/-- C7: the statement-rendering computations guard their divisions —
zero period income makes the savings rate render as 0, and a zero
expense total makes every category's percentage-of-total render as 0;
in this exact-arithmetic model no division is ever performed with a zero
denominator and no NaN value exists. -/
theorem c7_zero_division_guards (db : DB) (u : Int) (ms me : String) :
    (monthTypeTotal u "income" ms me db = 0 → monthlySavingsRate u ms me db = 0)
    ∧ (monthTypeTotal u "expense" ms me db = 0 →
        ∀ line ∈ monthlyCategoryLines u ms me db, line.2.2 = 0) := by
  constructor
  · intro hI
    simp [monthlySavingsRate, hI]
  · intro hE line hline
    obtain ⟨c, -, rfl⟩ := List.mem_map.1 hline
    simp [hE]

/-- C7 witness: on a month holding a single zero-amount expense row the
income total and the expense total are both 0, the guarded savings rate
renders 0, and the (nonempty) category breakdown renders percentage 0. -/
theorem c7_zero_division_guards_witness :
    monthlySavingsRate 1 "2025-01-01" "2025-02-01" dbZeroMonth = 0
    ∧ ((monthlyCategoryLines 1 "2025-01-01" "2025-02-01" dbZeroMonth).all
        (fun line => line.2.2 == 0)) = true := by
  have h := c7_zero_division_guards dbZeroMonth 1 "2025-01-01" "2025-02-01"
  have hI : monthTypeTotal 1 "income" "2025-01-01" "2025-02-01" dbZeroMonth = 0 := by
    simp +decide [monthTypeTotal, monthTrans, dbZeroMonth, strLe, strLt, charListLt]
  have hE : monthTypeTotal 1 "expense" "2025-01-01" "2025-02-01" dbZeroMonth = 0 := by
    simp +decide [monthTypeTotal, monthTrans, dbZeroMonth, strLe, strLt, charListLt]
  refine ⟨h.1 hI, ?_⟩
  rw [List.all_eq_true]
  intro line hline
  exact beq_iff_eq.2 (h.2 hE line hline)

/-- C8 counterexample: owner 1 has a settings row with daily reports
explicitly disabled yet owns a transaction, and the recipient query
still selects them — the UNION with all transaction owners ignores the
opt-in flag (contradicting the query's own docstring). -/
theorem c8_counterexample :
    (1 : Int) ∈ get_users_for_daily_report dbOptedOut
    ∧ spec_daily_report_enabled 1 dbOptedOut = false
    ∧ dbOptedOut.settings.map (fun s => (s.user_id, s.daily_report)) = [(1, false)] := by
  refine ⟨by decide, by decide, by decide⟩

/-- C8 amended: the daily push recipient set is exactly the owners with
the daily_report flag set in settings UNION the owners having at least
one transaction row; an owner with the flag disabled is still pushed a
report whenever they own any transaction. -/
theorem c8_amended_recipients (db : DB) (u : Int) :
    u ∈ get_users_for_daily_report db
      ↔ (∃ s ∈ db.settings, s.user_id = u ∧ s.daily_report = true)
        ∨ ∃ t ∈ db.transactions, t.user_id = u := by
  rw [get_users_for_daily_report, List.mem_dedup, List.mem_append]
  constructor
  · rintro (hmem | hmem)
    · obtain ⟨s, hs, hsu⟩ := List.mem_map.1 hmem
      have hf := List.mem_filter.1 hs
      exact Or.inl ⟨s, hf.1, hsu, hf.2⟩
    · obtain ⟨t, ht, htu⟩ := List.mem_map.1 hmem
      exact Or.inr ⟨t, ht, htu⟩
  · rintro (⟨s, hs, hsu, hsd⟩ | ⟨t, ht, htu⟩)
    · exact Or.inl (List.mem_map.2 ⟨s, List.mem_filter.2 ⟨hs, hsd⟩, hsu⟩)
    · exact Or.inr (List.mem_map.2 ⟨t, ht, htu⟩)

/-- C9 counterexample: the report phrases the spec lists are not
recognized by the free-text router — each lands in the generic
unknown-command reply instead of a report. -/
theorem c9_counterexample :
    handle_text "today report" = .unknown
    ∧ handle_text "month report" = .unknown
    ∧ handle_text "mini statement" = .unknown
    ∧ handle_text "statement" = .unknown := by
  refine ⟨by decide, by decide, by decide, by decide⟩

/-- C9 amended: the free-text router recognizes only messages whose
lowercased, stripped text begins with `income` or `spend`; every other
message — report phrases included — yields the generic help/error
reply. -/
theorem c9_amended_router_commands (raw : String)
    (h1 : pyStarts (pyStrip (pyLower raw)) "income" = false)
    (h2 : pyStarts (pyStrip (pyLower raw)) "spend" = false) :
    handle_text raw = .unknown := by
  simp [handle_text, h1, h2]

/-- C9 amended witness: an arbitrary other message gets the generic
reply. -/
theorem c9_amended_router_commands_witness :
    handle_text "hello bot" = .unknown :=
  c9_amended_router_commands "hello bot" (by decide) (by decide)

/-- C10: no database write reachable through the bot interface ever
stores daily_report = false — the settings toggle always writes `True`
and the reset deletes rows — so from any state whose settings rows are
all enabled, any sequence of bot operations preserves that invariant:
once a settings row exists, daily reports cannot be disabled through the
bot. -/
theorem c10_daily_report_never_disabled (ops : List BotDBOp) (db : DB)
    (h : ∀ s ∈ db.settings, s.daily_report = true) :
    ∀ s ∈ (applyBotOps ops db).settings, s.daily_report = true := by
  induction ops generalizing db with
  | nil => exact h
  | cons o ops ih =>
    refine ih (applyBotOp o db) ?_
    cases o with
    | recIncome u a c ds dt => exact h
    | recExpense u a c ds dt => exact h
    | addBorrow u a ct p dt => exact h
    | addLend u a ct p dt => exact h
    | markReceived u did dt => exact h
    | markReturned u did dt => exact h
    | toggleDailyReport u =>
      intro s hs
      simp only [applyBotOp, update_user_settings] at hs
      split at hs
      · obtain ⟨s0, hs0, rfl⟩ := List.mem_map.1 hs
        by_cases hc : s0.user_id == u
        · simp [hc]
        · simp only [if_neg (by simpa using hc)] at *
          rw [if_neg (by simpa using hc)]
          exact h s0 hs0
      · rcases List.mem_append.1 hs with hs | hs
        · exact h s hs
        · simp at hs
          simp [hs]
    | executeReset u =>
      intro s hs
      exact h s (List.mem_of_mem_filter hs)

/-- C10 witness: the invariant evaluated across a concrete operation
sequence from a concrete enabled-only state. -/
theorem c10_daily_report_never_disabled_witness :
    ((applyBotOps
        [BotDBOp.toggleDailyReport 2,
         BotDBOp.recIncome 1 5 "salary" "" "2025-01-02",
         BotDBOp.executeReset 1,
         BotDBOp.toggleDailyReport 1] dbWit).settings.all
      (fun s => s.daily_report)) = true := by
  have h := c10_daily_report_never_disabled
    [BotDBOp.toggleDailyReport 2,
     BotDBOp.recIncome 1 5 "salary" "" "2025-01-02",
     BotDBOp.executeReset 1,
     BotDBOp.toggleDailyReport 1] dbWit (by decide)
  rw [List.all_eq_true]
  exact fun s hs => h s hs
